import Mathlib

/-!
Verification development for the FocusAura repository.

Part one embeds the code that is present in the repository source:
the background service worker's site classifier and intervention-page
deduplication, and the popup-layer MonitorEngine.  Part two models the
intervention-composition backend (validator, mode resolver, provider
clients with retry/backoff, fallback template bank, composer), which the
specification describes; those definitions carry doc comments noting
they are modelled from the spec.
-/

set_option maxRecDepth 16000

namespace FocusAura

/-! ### Character and string helpers -/

/-- Boolean prefix test on character lists. -/
def charsPrefixOf : List Char → List Char → Bool
  | [], _ => true
  | _ :: _, [] => false
  | a :: as, b :: bs => a == b && charsPrefixOf as bs

/-- Boolean substring test on character lists: does `needle` occur inside
`hay` as a contiguous run? -/
def charsContains (hay needle : List Char) : Bool :=
  (List.range (hay.length + 1)).any fun i => charsPrefixOf needle (hay.drop i)

/-- JavaScript `haystack.includes(needle)`: substring containment. -/
def strIncludes (hay needle : String) : Bool :=
  charsContains hay.data needle.data

/-- Whitespace test used by the modelled trim. -/
def isWhitespaceChar (c : Char) : Bool :=
  c == ' ' || c == '\t' || c == '\n' || c == '\r'

/-- Strip leading and trailing whitespace from a character list. -/
def trimChars (l : List Char) : List Char :=
  ((l.dropWhile isWhitespaceChar).reverse.dropWhile isWhitespaceChar).reverse

/-- Modelled from the spec: the "blank after trimming" test used by the
validator and the composer.  Executable counterpart of string trimming. -/
def strTrim (s : String) : String :=
  ⟨trimChars s.data⟩

/-- Modelled from the spec: lower-casing of the inbound event tag. -/
def lowerStr (s : String) : String :=
  ⟨s.data.map Char.toLower⟩

/-! ### Background service worker (src/unnamed/part_003 and part_004) -/

/-- The seven distraction URL patterns of `classifySite`. -/
def distractionPatterns : List String :=
  ["youtube.com", "twitter.com", "facebook.com", "reddit.com",
   "instagram.com", "tiktok.com", "netflix.com"]

/-- The five work URL patterns of `classifySite`. -/
def workPatterns : List String :=
  ["docs.google.com", "github.com", "notion.so", "figma.com", "localhost"]

/-- The worker's `for`-loop over a pattern list: return on the first
pattern the URL includes. -/
def matchesAny (url : String) : List String → Bool
  | [] => false
  | p :: ps => if strIncludes url p then true else matchesAny url ps

/-- `classifySite` from the background service worker: distraction
patterns are scanned first, then work patterns, else "unknown". -/
def classifySite (url : String) : String :=
  if matchesAny url distractionPatterns then "distraction"
  else if matchesAny url workPatterns then "work"
  else "unknown"

/-- Deduplication window of `openInterventionPage` (milliseconds). -/
def interventionWindowMs : Nat := 5000

/-- State of the background worker relevant to intervention-page
deduplication: the `recentInterventions` entries (tab id paired with the
time it was added; the `setTimeout` deletion is modelled as expiry at
that time plus the window), and the list of intervention tabs created. -/
structure BgState where
  recentInterventions : List (Nat × Nat)
  openedTabs : List (Nat × Nat)
  deriving DecidableEq, Repr

/-- Membership of a tab id in `recentInterventions` at time `now`:
present and not yet expired by the 5-second `setTimeout` deletion. -/
def recentHas (s : BgState) (now tabId : Nat) : Bool :=
  s.recentInterventions.any fun e => e.1 == tabId && now < e.2 + interventionWindowMs

/-- `openInterventionPage` from the background worker: if the tab id is
in the recent set the call returns early and creates nothing; otherwise
the tab id is added to the recent set and an intervention tab is
created. -/
def openInterventionPage (s : BgState) (now tabId : Nat) : BgState :=
  if recentHas s now tabId then s
  else { recentInterventions := (tabId, now) :: s.recentInterventions,
         openedTabs := (tabId, now) :: s.openedTabs }

/-! ### MonitorEngine (src/extension/src/components/MonitorEngine.js) -/

/-- The focus-session state documented for `shouldTriggerIntervention`:
URL of the active tab, minutes on the current task, and the timestamp of
the last intervention. -/
structure MonitorState where
  currentTab : Option String
  timeOnTask : Nat
  lastInterventionTime : Nat
  deriving DecidableEq, Repr

/-- `shouldTriggerIntervention` from MonitorEngine.js: the MVP body
always returns `false`; interventions are triggered manually. -/
def shouldTriggerIntervention (_s : MonitorState) : Bool :=
  false

/-! ### Backend model (the composition engine is not in the repository
source; it is modelled from the spec) -/

/-- Modelled from the spec: the process-wide mode switch. -/
inductive Mode
  | Demo
  | Live
  deriving DecidableEq, Repr

/-- Modelled from the spec: ModeConfig — mode, optional credential,
per-provider timeout, max retry attempts, base backoff interval, and the
composer's overall deadline, all read-only per request. -/
structure ModeConfig where
  mode : Mode
  credential : Option String
  timeoutMs : Nat
  maxAttempts : Nat
  baseBackoffMs : Nat
  deadlineMs : Nat
  deriving DecidableEq, Repr

/-- Modelled from the spec: the Mode Resolver's single query —
live iff mode = Live and a credential is configured. -/
def shouldCallLive (cfg : ModeConfig) : Bool :=
  match cfg.mode, cfg.credential with
  | Mode.Live, some _ => true
  | _, _ => false

/-- Modelled from the spec: origin of a ProviderResult. -/
inductive Origin
  | LiveSuccess
  | LiveFallback
  | DemoTemplate
  deriving DecidableEq, Repr

/-- Modelled from the spec: the error taxonomy of the provider layer. -/
inductive ErrKind
  | AuthError
  | RateLimitError
  | ServerError
  | TimeoutError
  | NetworkError
  | ParseError
  deriving DecidableEq, Repr

/-- Modelled from the spec: one provider's result for one request. -/
structure ProviderResult where
  origin : Origin
  payload : String
  error : Option ErrKind
  deriving DecidableEq, Repr

/-- Modelled from the spec: the three provider roles. -/
inductive Role
  | evidence
  | recency
  | synthesis
  deriving DecidableEq, Repr

/-- Modelled from the spec: the raw inbound payload before validation;
absent fields are `none`, and `time_on_task_minutes` may be negative
before the validator checks it. -/
structure RawPayload where
  goal : Option String
  context_title : Option String
  context_app : Option String
  time_on_task_minutes : Option Int
  event : Option String
  deriving DecidableEq, Repr

/-- Modelled from the spec: the well-typed FocusEvent the validator
produces; `event` holds the classified distraction category. -/
structure FocusEvent where
  goal : String
  context_title : String
  context_app : String
  time_on_task_minutes : Nat
  event : String
  deriving DecidableEq, Repr

/-- Modelled from the spec: the fixed classification table mapping a
distraction keyword found in the lower-cased event tag to a category. -/
def categoryTable : List (String × String) :=
  [("video", "switched_to_video"),
   ("youtube", "switched_to_video"),
   ("social", "switched_to_social"),
   ("twitter", "switched_to_social"),
   ("facebook", "switched_to_social"),
   ("news", "switched_to_news")]

/-- Modelled from the spec: lower-case the event tag and match it
against the fixed category table; unmatched tags map to "unknown". -/
def eventCategory (ev : String) : String :=
  match categoryTable.find? (fun kv => strIncludes (lowerStr ev) kv.1) with
  | some kv => kv.2
  | none => "unknown"

/-- Modelled from the spec: the validator's list of offending fields,
enumerating every offending field, not just the first. -/
def validationErrors (p : RawPayload) : List String :=
  (if strTrim (p.goal.getD "") = "" then ["goal"] else []) ++
  (match p.time_on_task_minutes with
   | some t => if t < 0 then ["time_on_task_minutes"] else []
   | none => [])

/-- Modelled from the spec: the Request Validator — a well-typed
FocusEvent, or a ValidationError carrying every offending field. -/
def validate (p : RawPayload) : Except (List String) FocusEvent :=
  match validationErrors p with
  | [] =>
    Except.ok
      { goal := p.goal.getD ""
        context_title := p.context_title.getD ""
        context_app := p.context_app.getD ""
        time_on_task_minutes := (p.time_on_task_minutes.getD 0).toNat
        event :=
          match p.event with
          | some e => eventCategory e
          | none => "unknown" }
  | errs => Except.error errs

/-- Modelled from the spec: the Fallback Template Bank — a fixed
mapping from (provider role, category) to a deterministic non-empty
text, with a default entry for unmatched categories. -/
def template (r : Role) (cat : String) : String :=
  match r with
  | Role.evidence =>
    if cat = "switched_to_video" then
      "Research shows a 90-second walk resets the prefrontal cortex after video distraction."
    else if cat = "switched_to_social" then
      "Social feeds trigger dopamine spikes; a short breathing break restores executive function."
    else
      "Brief structured breaks restore attention after a distraction."
  | Role.recency =>
    if cat = "switched_to_video" then
      "A recent study links short physical resets to faster refocus after streaming breaks."
    else if cat = "switched_to_social" then
      "Recent work reports box breathing lowers stress markers within two minutes."
    else
      "Recent behavioral studies support brief resets to recover deep focus."
  | Role.synthesis =>
    if cat = "switched_to_video" then
      "Close the video tab and take a 90-second walk, no phone."
    else if cat = "switched_to_social" then
      "Close the feed, breathe slowly for one minute, then reopen your work document."
    else
      "Pause, write one sentence about your next step, and return to your task."

/-- Modelled from the spec: the fixed citation string associated with
the Fallback Template Bank entry for a category. -/
def templateCitation (cat : String) : String :=
  if cat = "switched_to_video" then
    "Oppezzo and Schwartz, Stanford (2023)"
  else if cat = "switched_to_social" then
    "Harvard Medical School (2024)"
  else
    "FocusAura curated research digest"

/-- Modelled from the spec: outcome of one underlying network call. -/
inductive CallOutcome
  | success (payload : String)
  | failure (kind : ErrKind)
  deriving DecidableEq, Repr

/-- Modelled from the spec: which classified failures are retried —
rate-limit, server, timeout and network failures; auth and parse
failures are not. -/
def retryable : ErrKind → Bool
  | ErrKind.RateLimitError => true
  | ErrKind.ServerError => true
  | ErrKind.TimeoutError => true
  | ErrKind.NetworkError => true
  | ErrKind.AuthError => false
  | ErrKind.ParseError => false

/-- The classified kind of a failed call (junk value on success). -/
def failureKind : CallOutcome → ErrKind
  | CallOutcome.failure k => k
  | CallOutcome.success _ => ErrKind.ParseError

/-- Modelled from the spec: the backoff slept before attempt `k`
(for `k ≥ 2`) — base interval times `2 ^ (k - 1)`, with a jitter term
clamped so jitter never exceeds the base exponential term. -/
def backoffBefore (base : Nat) (jitter : Nat → Nat) (k : Nat) : Nat :=
  base * 2 ^ (k - 1) + min (jitter k) (base * 2 ^ (k - 1))

/-- Trace of one provider invocation: the returned result, the number
of underlying calls made, and the backoff intervals slept in order. -/
structure AttemptTrace where
  result : ProviderResult
  calls : Nat
  sleeps : List Nat
  deriving DecidableEq, Repr

/-- Modelled from the spec: a LiveFallback result carrying the
classified error and a payload from the Fallback Template Bank. -/
def fallbackResult (r : Role) (cat : String) (k : ErrKind) : ProviderResult :=
  { origin := Origin.LiveFallback, payload := template r cat, error := some k }

/-- Modelled from the spec: the provider client's retry loop.  Attempt
`k` runs with `fuel` attempts remaining: success returns LiveSuccess;
a non-retryable failure, or a retryable failure with no attempt left,
returns a template-backed LiveFallback; otherwise the loop sleeps the
exponential backoff and retries. -/
def runAttempts (r : Role) (cat : String) (call : Nat → CallOutcome)
    (base : Nat) (jitter : Nat → Nat) : Nat → Nat → AttemptTrace
  | _, 0 =>
    { result := fallbackResult r cat ErrKind.TimeoutError, calls := 0, sleeps := [] }
  | k, fuel + 1 =>
    match call k with
    | CallOutcome.success p =>
      { result := { origin := Origin.LiveSuccess, payload := p, error := none },
        calls := 1, sleeps := [] }
    | CallOutcome.failure kind =>
      if retryable kind && fuel != 0 then
        let rest := runAttempts r cat call base jitter (k + 1) fuel
        { result := rest.result, calls := rest.calls + 1,
          sleeps := backoffBefore base jitter (k + 1) :: rest.sleeps }
      else
        { result := fallbackResult r cat kind, calls := 1, sleeps := [] }

/-- Modelled from the spec: the Provider Client's `invoke` — bypass to
a DemoTemplate result with zero calls when the Mode Resolver says so,
otherwise run the retry loop starting at attempt 1 with `maxAttempts`
fuel. -/
def invoke (cfg : ModeConfig) (r : Role) (ev : FocusEvent)
    (call : Nat → CallOutcome) (jitter : Nat → Nat) : AttemptTrace :=
  if shouldCallLive cfg then
    runAttempts r ev.event call cfg.baseBackoffMs jitter 1 cfg.maxAttempts
  else
    { result := { origin := Origin.DemoTemplate, payload := template r ev.event, error := none },
      calls := 0, sleeps := [] }

/-- Modelled from the spec: the output structure. -/
structure InterventionResponse where
  action_now : String
  why_it_works : String
  goal_reminder : String
  citation : String
  deriving DecidableEq, Repr

/-- Modelled from the spec: if synthesis cannot produce a field (the
candidate is blank), the Fallback Template Bank supplies it. -/
def orTemplate (s fb : String) : String :=
  if strTrim s = "" then fb else s

/-- Whether a provider result carries an error. -/
def hasError (r : ProviderResult) : Bool :=
  r.error.isSome

/-- Modelled from the spec: the fixed generic phrase used for
`goal_reminder` when the goal is blank (defensive default only). -/
def genericGoalPhrase : String :=
  "Stay focused on your current task."

/-- Modelled from the spec: `goal_reminder` is deterministically
formatted from the goal, with a fixed generic phrase for a blank goal. -/
def goalReminder (goal : String) : String :=
  if strTrim goal = "" then genericGoalPhrase else "Your goal: " ++ goal

/-- Modelled from the spec: `action_now` derives from the synthesis
result; if it carries an error, from the evidence result; if both are
error-bearing, from the template bank's category default. -/
def actionNow (syn evd : ProviderResult) (cat : String) : String :=
  if hasError syn then
    if hasError evd then template Role.synthesis cat
    else orTemplate evd.payload (template Role.synthesis cat)
  else orTemplate syn.payload (template Role.synthesis cat)

/-- Modelled from the spec: `why_it_works` combines the evidence and
recency payloads, falling back to the template bank when both blank. -/
def whyItWorks (evd rec : ProviderResult) (cat : String) : String :=
  if strTrim evd.payload = "" then orTemplate rec.payload (template Role.evidence cat)
  else if strTrim rec.payload = "" then evd.payload
  else evd.payload ++ " " ++ rec.payload

/-- Modelled from the spec: `citation` is taken from the first
LiveSuccess result (synthesis, else evidence, else recency); otherwise
the fixed citation of the Fallback Template Bank entry. -/
def pickCitation (syn evd rec : ProviderResult) (cat : String) : String :=
  if syn.origin = Origin.LiveSuccess then syn.payload
  else if evd.origin = Origin.LiveSuccess then evd.payload
  else if rec.origin = Origin.LiveSuccess then rec.payload
  else templateCitation cat

/-- Modelled from the spec: the Composer's synthesis step, merging the
three provider results into the structured response. -/
def synthesize (ev : FocusEvent) (evd rec syn : ProviderResult) : InterventionResponse :=
  { action_now := actionNow syn evd ev.event
    why_it_works := whyItWorks evd rec ev.event
    goal_reminder := goalReminder ev.goal
    citation := orTemplate (pickCitation syn evd rec ev.event) (templateCitation ev.event) }

/-- Modelled from the spec: `compose` — invoke the three provider
clients (each mode-gated and fallback-protected) and synthesize. -/
def compose (cfg : ModeConfig) (ev : FocusEvent)
    (callE callR callS : Nat → CallOutcome) (jitter : Nat → Nat) : InterventionResponse :=
  synthesize ev
    (invoke cfg Role.evidence ev callE jitter).result
    (invoke cfg Role.recency ev callR jitter).result
    (invoke cfg Role.synthesis ev callS jitter).result

/-- Modelled from the spec: the request boundary — validation failure
is surfaced before any provider work; a validated event always yields a
composed response. -/
def handleRequest (cfg : ModeConfig) (p : RawPayload)
    (callE callR callS : Nat → CallOutcome) (jitter : Nat → Nat) :
    Except (List String) InterventionResponse :=
  match validate p with
  | Except.error e => Except.error e
  | Except.ok ev => Except.ok (compose cfg ev callE callR callS jitter)

/-- Modelled from the spec: the LiveFallback/TimeoutError placeholder a
slot receives when its provider is still in flight at the deadline. -/
def timeoutSlot (r : Role) (cat : String) : ProviderResult :=
  { origin := Origin.LiveFallback, payload := template r cat,
    error := some ErrKind.TimeoutError }

/-- Modelled from the spec: deadline gating of one provider slot — a
provider whose latency exceeds the composer's deadline is cancelled and
its slot filled with the timeout placeholder. -/
def fillSlot (cfg : ModeConfig) (r : Role) (cat : String)
    (res : ProviderResult) (latency : Nat) : ProviderResult :=
  if cfg.deadlineMs < latency then timeoutSlot r cat else res

/-- Modelled from the spec: the timed composer in a discrete-latency
model.  Each provider slot is deadline-gated, synthesis is immediate,
and the elapsed time is the slowest provider capped at the deadline. -/
def composeTimed (cfg : ModeConfig) (ev : FocusEvent)
    (rE rR rS : ProviderResult) (lE lR lS : Nat) : InterventionResponse × Nat :=
  (synthesize ev
      (fillSlot cfg Role.evidence ev.event rE lE)
      (fillSlot cfg Role.recency ev.event rR lR)
      (fillSlot cfg Role.synthesis ev.event rS lS),
   min (max lE (max lR lS)) cfg.deadlineMs)

/-! ### Concrete fixtures used by witnesses and counterexamples -/

/-- A Demo-mode configuration. -/
def demoCfg : ModeConfig :=
  { mode := Mode.Demo, credential := none, timeoutMs := 10000,
    maxAttempts := 3, baseBackoffMs := 100, deadlineMs := 2500 }

/-- A Live-mode configuration with a credential. -/
def liveCfg : ModeConfig :=
  { mode := Mode.Live, credential := some "key", timeoutMs := 10000,
    maxAttempts := 3, baseBackoffMs := 100, deadlineMs := 2500 }

/-- A call oracle that always fails with an auth-classified error. -/
def authCall : Nat → CallOutcome :=
  fun _ => CallOutcome.failure ErrKind.AuthError

/-- A call oracle that always fails with a server-classified error. -/
def serverCall : Nat → CallOutcome :=
  fun _ => CallOutcome.failure ErrKind.ServerError

/-- The zero-jitter schedule. -/
def noJitter : Nat → Nat :=
  fun _ => 0

/-- A sample validated event. -/
def sampleEventA : FocusEvent :=
  { goal := "Finish Section 2 by 3 PM", context_title := "Project_Proposal.docx",
    context_app := "Google Docs", time_on_task_minutes := 42,
    event := "switched_to_video" }

/-- The same category as `sampleEventA` but a different goal. -/
def sampleEventB : FocusEvent :=
  { goal := "Write the appendix", context_title := "Project_Proposal.docx",
    context_app := "Google Docs", time_on_task_minutes := 42,
    event := "switched_to_video" }

/-- The same category and goal as `sampleEventA`, other fields differ. -/
def sampleEventC : FocusEvent :=
  { goal := "Finish Section 2 by 3 PM", context_title := "Other.docx",
    context_app := "Word", time_on_task_minutes := 7,
    event := "switched_to_video" }

/-- A blank-goal event for the defensive-default branch. -/
def blankGoalEvent : FocusEvent :=
  { goal := "   ", context_title := "", context_app := "",
    time_on_task_minutes := 0, event := "unknown" }

end FocusAura

namespace FocusAura

set_option maxRecDepth 8000

/-! ### Helper lemmas -/

lemma charsPrefixOf_iff : ∀ p l : List Char, charsPrefixOf p l = true ↔ p <+: l := by
  intro p
  induction p with
  | nil => intro l; exact ⟨fun _ => List.nil_prefix, fun _ => rfl⟩
  | cons a as ih =>
    intro l
    cases l with
    | nil =>
      exact ⟨fun h => (nomatch h),
        fun h => absurd (List.prefix_nil.mp h) (List.cons_ne_nil a as)⟩
    | cons b bs =>
      rw [show charsPrefixOf (a :: as) (b :: bs) = (a == b && charsPrefixOf as bs) from rfl,
          Bool.and_eq_true, List.cons_prefix_cons]
      exact and_congr beq_iff_eq (ih bs)

lemma charsContains_iff (hay needle : List Char) :
    charsContains hay needle = true ↔ needle <:+: hay := by
  unfold charsContains
  rw [List.any_eq_true]
  constructor
  · rintro ⟨i, _, hpre⟩
    obtain ⟨t, ht⟩ := (charsPrefixOf_iff _ _).mp hpre
    exact ⟨hay.take i, t, by rw [List.append_assoc, ht, List.take_append_drop]⟩
  · rintro ⟨s, t, rfl⟩
    refine ⟨s.length, ?_, ?_⟩
    · rw [List.mem_range]
      simp only [List.length_append]
      omega
    · have hdrop : (s ++ needle ++ t).drop s.length = needle ++ t := by
        rw [List.append_assoc, List.drop_left]
      rw [hdrop]
      exact (charsPrefixOf_iff _ _).mpr ⟨t, rfl⟩

lemma strIncludes_iff (hay needle : String) :
    strIncludes hay needle = true ↔ needle.data <:+: hay.data :=
  charsContains_iff hay.data needle.data

lemma matchesAny_iff (url : String) :
    ∀ ps : List String, matchesAny url ps = true ↔ ∃ p ∈ ps, p.data <:+: url.data := by
  intro ps
  induction ps with
  | nil => simp [matchesAny]
  | cons q qs ih =>
    cases hq : strIncludes url q with
    | true =>
      have hin : q.data <:+: url.data := (strIncludes_iff url q).mp hq
      simp only [matchesAny, hq, if_true]
      constructor
      · intro _; exact ⟨q, List.mem_cons_self q qs, hin⟩
      · intro _; trivial
    | false =>
      have hnq : ¬ q.data <:+: url.data := by
        intro hc
        have := (strIncludes_iff url q).mpr hc
        rw [hq] at this
        exact Bool.false_ne_true this
      simp only [matchesAny, hq, if_false, Bool.false_eq_true]
      rw [ih]
      constructor
      · rintro ⟨p, hp, hi⟩; exact ⟨p, List.mem_cons_of_mem q hp, hi⟩
      · rintro ⟨p, hp, hi⟩
        rcases List.mem_cons.mp hp with rfl | hp2
        · exact absurd hi hnq
        · exact ⟨p, hp2, hi⟩

end FocusAura

namespace FocusAura

lemma str_eq_empty_of_length (s : String) (h : s.length = 0) : s = "" := by
  cases s with
  | mk d =>
    cases d with
    | nil => rfl
    | cons c cs => simp [String.length] at h

lemma str_append_ne_left (a b : String) (ha : a ≠ "") : a ++ b ≠ "" := by
  intro h
  apply ha
  have hl := congrArg String.length h
  rw [String.length_append] at hl
  have h0 : ("" : String).length = 0 := rfl
  exact str_eq_empty_of_length a (by omega)

lemma strTrim_empty : strTrim "" = "" := rfl

lemma str_ne_empty_of_trim (s : String) (h : strTrim s ≠ "") : s ≠ "" := by
  intro he
  rw [he] at h
  exact h strTrim_empty

lemma template_ne (r : Role) (cat : String) : template r cat ≠ "" := by
  cases r <;> unfold template <;> split_ifs <;> decide

lemma templateCitation_ne (cat : String) : templateCitation cat ≠ "" := by
  unfold templateCitation
  split_ifs <;> decide

lemma orTemplate_ne (s fb : String) (hfb : fb ≠ "") : orTemplate s fb ≠ "" := by
  unfold orTemplate
  split
  · exact hfb
  · exact str_ne_empty_of_trim s (by assumption)

lemma goalReminder_ne (g : String) : goalReminder g ≠ "" := by
  unfold goalReminder
  split
  · decide
  · exact str_append_ne_left "Your goal: " g (by decide)

lemma whyItWorks_ne (evd rec : ProviderResult) (cat : String) :
    whyItWorks evd rec cat ≠ "" := by
  unfold whyItWorks
  split
  · exact orTemplate_ne _ _ (template_ne Role.evidence cat)
  · split
    · exact str_ne_empty_of_trim _ (by assumption)
    · exact str_append_ne_left _ _
        (str_append_ne_left _ " " (str_ne_empty_of_trim _ (by assumption)))

lemma actionNow_ne (syn evd : ProviderResult) (cat : String) :
    actionNow syn evd cat ≠ "" := by
  unfold actionNow
  split
  · split
    · exact template_ne Role.synthesis cat
    · exact orTemplate_ne _ _ (template_ne Role.synthesis cat)
  · exact orTemplate_ne _ _ (template_ne Role.synthesis cat)

lemma synthesize_complete (ev : FocusEvent) (evd rec syn : ProviderResult) :
    (synthesize ev evd rec syn).action_now ≠ "" ∧
    (synthesize ev evd rec syn).why_it_works ≠ "" ∧
    (synthesize ev evd rec syn).goal_reminder ≠ "" ∧
    (synthesize ev evd rec syn).citation ≠ "" :=
  ⟨actionNow_ne syn evd ev.event, whyItWorks_ne evd rec ev.event,
   goalReminder_ne ev.goal, orTemplate_ne _ _ (templateCitation_ne ev.event)⟩

end FocusAura

namespace FocusAura

lemma backoffBefore_mono (base : Nat) (jitter : Nat → Nat) :
    ∀ k, 1 ≤ k → backoffBefore base jitter k ≤ backoffBefore base jitter (k + 1) := by
  intro k hk
  unfold backoffBefore
  have hk1 : k - 1 + 1 = k := Nat.succ_pred_eq_of_pos hk
  have h1 : min (jitter k) (base * 2 ^ (k - 1)) ≤ base * 2 ^ (k - 1) :=
    Nat.min_le_right _ _
  have h2 : base * 2 ^ (k - 1) + base * 2 ^ (k - 1) = base * 2 ^ k := by
    conv_rhs => rw [← hk1]
    rw [pow_succ]
    ring
  have h3 : k + 1 - 1 = k := by omega
  rw [h3]
  calc base * 2 ^ (k - 1) + min (jitter k) (base * 2 ^ (k - 1))
      ≤ base * 2 ^ (k - 1) + base * 2 ^ (k - 1) := Nat.add_le_add_left h1 _
    _ = base * 2 ^ k := h2
    _ ≤ base * 2 ^ k + min (jitter (k + 1)) (base * 2 ^ k) := Nat.le_add_right _ _

lemma chain_le_map_range (f : Nat → Nat) (hmono : ∀ k, 1 ≤ k → f k ≤ f (k + 1)) :
    ∀ (n a : Nat), 1 ≤ a → List.Chain' (fun x y => x ≤ y) ((List.range' a n).map f) := by
  intro n
  induction n with
  | zero => intro a _; simp
  | succ m ih =>
    intro a ha
    rw [show List.range' a (m + 1) = a :: List.range' (a + 1) m from rfl, List.map_cons]
    rw [List.chain'_cons']
    constructor
    · intro y hy
      cases m with
      | zero => simp [List.range'] at hy
      | succ m2 =>
        rw [show List.range' (a + 1) (m2 + 1) = (a + 1) :: List.range' (a + 2) m2 from rfl,
            List.map_cons] at hy
        simp only [List.head?_cons, Option.mem_def, Option.some.injEq] at hy
        rw [← hy]
        exact hmono a ha
    · exact ih (a + 1) (Nat.le_succ_of_le ha)

lemma runAttempts_server (r : Role) (cat : String) (call : Nat → CallOutcome)
    (base : Nat) (jitter : Nat → Nat)
    (hsrv : ∀ k, ∃ kind, call k = CallOutcome.failure kind ∧ retryable kind = true) :
    ∀ fuel k,
      runAttempts r cat call base jitter k (fuel + 1) =
        { result := fallbackResult r cat (failureKind (call (k + fuel))),
          calls := fuel + 1,
          sleeps := (List.range' (k + 1) fuel).map (backoffBefore base jitter) } := by
  intro fuel
  induction fuel with
  | zero =>
    intro k
    obtain ⟨kind, hk, hr⟩ := hsrv k
    simp [runAttempts, hk, hr, failureKind]
  | succ f ih =>
    intro k
    obtain ⟨kind, hk, hr⟩ := hsrv k
    have harith : k + 1 + f = k + (f + 1) := by omega
    rw [show runAttempts r cat call base jitter k (f + 1 + 1) =
        (match call k with
         | CallOutcome.success p =>
           { result := { origin := Origin.LiveSuccess, payload := p, error := none },
             calls := 1, sleeps := [] }
         | CallOutcome.failure kind =>
           if retryable kind && (f + 1) != 0 then
             let rest := runAttempts r cat call base jitter (k + 1) (f + 1)
             { result := rest.result, calls := rest.calls + 1,
               sleeps := backoffBefore base jitter (k + 1) :: rest.sleeps }
           else
             { result := fallbackResult r cat kind, calls := 1, sleeps := [] }) from rfl]
    rw [hk]
    simp only [hr, Bool.true_and, ne_eq]
    rw [ih (k + 1), harith]
    simp [List.range'_succ]

end FocusAura

namespace FocusAura

/-! ### Claim theorems -/

/-- C9: `classifySite` returns "distraction" whenever the URL contains
one of the seven distraction patterns, even if it also contains a work
pattern, because distraction patterns are checked first; it returns
"work" when the URL contains a work pattern and no distraction pattern;
and it returns "unknown" when it contains neither. -/
theorem classifySite_correct (url : String) :
    ((∃ p ∈ distractionPatterns, p.data <:+: url.data) →
      classifySite url = "distraction") ∧
    ((∀ p ∈ distractionPatterns, ¬ p.data <:+: url.data) →
      (∃ p ∈ workPatterns, p.data <:+: url.data) →
      classifySite url = "work") ∧
    ((∀ p ∈ distractionPatterns, ¬ p.data <:+: url.data) →
      (∀ p ∈ workPatterns, ¬ p.data <:+: url.data) →
      classifySite url = "unknown") := by
  have hD := matchesAny_iff url distractionPatterns
  have hW := matchesAny_iff url workPatterns
  refine ⟨fun h => ?_, fun hnd h => ?_, fun hnd hnw => ?_⟩
  · unfold classifySite
    rw [if_pos (hD.mpr h)]
  · have h1 : matchesAny url distractionPatterns = false := by
      cases hb : matchesAny url distractionPatterns with
      | false => rfl
      | true =>
        obtain ⟨p, hp, hi⟩ := hD.mp hb
        exact absurd hi (hnd p hp)
    unfold classifySite
    rw [if_neg (by simp [h1]), if_pos (hW.mpr h)]
  · have h1 : matchesAny url distractionPatterns = false := by
      cases hb : matchesAny url distractionPatterns with
      | false => rfl
      | true =>
        obtain ⟨p, hp, hi⟩ := hD.mp hb
        exact absurd hi (hnd p hp)
    have h2 : matchesAny url workPatterns = false := by
      cases hb : matchesAny url workPatterns with
      | false => rfl
      | true =>
        obtain ⟨p, hp, hi⟩ := hW.mp hb
        exact absurd hi (hnw p hp)
    unfold classifySite
    rw [if_neg (by simp [h1]), if_neg (by simp [h2])]

/-- Witness for C9: concrete URLs exercising all three branches;
https://docs.google.com/youtube exercises the distraction-first rule on
a URL that contains a work pattern as well. -/
theorem classifySite_correct_witness :
    classifySite "https://docs.google.com/youtube.com/x" = "distraction" ∧
    classifySite "https://github.com/focusaura" = "work" ∧
    classifySite "https://example.org/page" = "unknown" :=
  ⟨(classifySite_correct "https://docs.google.com/youtube.com/x").1
      ⟨"youtube.com", by decide, by decide⟩,
   (classifySite_correct "https://github.com/focusaura").2.1
      (by decide) ⟨"github.com", by decide, by decide⟩,
   (classifySite_correct "https://example.org/page").2.2 (by decide) (by decide)⟩

/-- C10: the popup-layer MonitorEngine's `shouldTriggerIntervention`
returns false for every state; it never triggers an intervention on its
own. -/
theorem shouldTriggerIntervention_always_false (s : MonitorState) :
    shouldTriggerIntervention s = false :=
  rfl

/-- C8: after `openInterventionPage` opens an intervention page for a
tab id, a further call for the same tab id within the 5-second window
leaves the state unchanged — the tab id is held in the recent set, the
call returns early, and no new intervention tab is created. -/
theorem openInterventionPage_dedups (s : BgState) (t t2 tab : Nat)
    (hfresh : recentHas s t tab = false)
    (h1 : t ≤ t2) (h2 : t2 < t + interventionWindowMs) :
    (openInterventionPage s t tab).openedTabs = (tab, t) :: s.openedTabs ∧
    recentHas (openInterventionPage s t tab) t2 tab = true ∧
    openInterventionPage (openInterventionPage s t tab) t2 tab =
      openInterventionPage s t tab := by
  have hopen : openInterventionPage s t tab =
      { recentInterventions := (tab, t) :: s.recentInterventions,
        openedTabs := (tab, t) :: s.openedTabs } := by
    unfold openInterventionPage
    rw [if_neg (by simp [hfresh])]
  have hrecent : recentHas (openInterventionPage s t tab) t2 tab = true := by
    rw [hopen]
    unfold recentHas
    simp only [List.any_cons]
    have : (tab == tab && decide (t2 < t + interventionWindowMs)) = true := by
      simp [h2]
    rw [this]
    simp
  have hgen : ∀ (s2 : BgState) (n tb : Nat),
      recentHas s2 n tb = true → openInterventionPage s2 n tb = s2 := by
    intro s2 n tb h
    unfold openInterventionPage
    rw [if_pos h]
  exact ⟨by rw [hopen], hrecent, hgen _ _ _ hrecent⟩

/-- Witness for C8: a fresh state, an intervention opened at time 0 for
tab 7, and a second call at time 4999 inside the window. -/
theorem openInterventionPage_dedups_witness :
    (openInterventionPage ⟨[], []⟩ 0 7).openedTabs = [(7, 0)] ∧
    recentHas (openInterventionPage ⟨[], []⟩ 0 7) 4999 7 = true ∧
    openInterventionPage (openInterventionPage ⟨[], []⟩ 0 7) 4999 7 =
      openInterventionPage ⟨[], []⟩ 0 7 :=
  openInterventionPage_dedups ⟨[], []⟩ 0 4999 7 (by decide) (by decide) (by decide)

end FocusAura

namespace FocusAura

/-- C2: in Live mode, when the underlying call always fails with an
auth-classified error, the provider client makes the underlying call
exactly once (no retry) and returns a LiveFallback result with
error = AuthError and a payload from the Fallback Template Bank. -/
theorem auth_failure_no_retry (cfg : ModeConfig) (r : Role) (ev : FocusEvent)
    (call : Nat → CallOutcome) (jitter : Nat → Nat)
    (hlive : shouldCallLive cfg = true) (hmax : 1 ≤ cfg.maxAttempts)
    (hauth : ∀ k, call k = CallOutcome.failure ErrKind.AuthError) :
    (invoke cfg r ev call jitter).calls = 1 ∧
    (invoke cfg r ev call jitter).result = fallbackResult r ev.event ErrKind.AuthError ∧
    (invoke cfg r ev call jitter).sleeps = [] := by
  obtain ⟨m, hm⟩ := Nat.exists_eq_add_of_le hmax
  have hinv : invoke cfg r ev call jitter =
      runAttempts r ev.event call cfg.baseBackoffMs jitter 1 cfg.maxAttempts := by
    unfold invoke
    rw [if_pos hlive]
  have hrun : runAttempts r ev.event call cfg.baseBackoffMs jitter 1 cfg.maxAttempts =
      { result := fallbackResult r ev.event ErrKind.AuthError, calls := 1, sleeps := [] } := by
    rw [hm, Nat.add_comm]
    simp [runAttempts, hauth 1, retryable]
  rw [hinv, hrun]
  exact ⟨rfl, rfl, rfl⟩

/-- Witness for C2: Live mode with credential and default 3 attempts,
against an oracle that always reports an auth failure. -/
theorem auth_failure_no_retry_witness :
    (invoke liveCfg Role.evidence sampleEventA authCall noJitter).calls = 1 ∧
    (invoke liveCfg Role.evidence sampleEventA authCall noJitter).result =
      fallbackResult Role.evidence sampleEventA.event ErrKind.AuthError ∧
    (invoke liveCfg Role.evidence sampleEventA authCall noJitter).sleeps = [] :=
  auth_failure_no_retry liveCfg Role.evidence sampleEventA authCall noJitter
    (by decide) (by decide) (fun _ => rfl)

/-- C3: in Live mode, when the underlying call always fails with a
server-classified (retryable) error, the provider client makes the
underlying call exactly `maxAttempts` times, then returns a LiveFallback
carrying the last classified kind and a template payload; the backoff
slept before attempt k is base times 2^(k-1) plus clamped jitter, and
the successive backoff intervals are non-decreasing. -/
theorem server_failure_exhausts_retries (cfg : ModeConfig) (r : Role) (ev : FocusEvent)
    (call : Nat → CallOutcome) (jitter : Nat → Nat)
    (hlive : shouldCallLive cfg = true) (hmax : 1 ≤ cfg.maxAttempts)
    (hsrv : ∀ k, ∃ kind, call k = CallOutcome.failure kind ∧ retryable kind = true) :
    (invoke cfg r ev call jitter).calls = cfg.maxAttempts ∧
    (invoke cfg r ev call jitter).result =
      fallbackResult r ev.event (failureKind (call cfg.maxAttempts)) ∧
    (invoke cfg r ev call jitter).sleeps =
      (List.range' 2 (cfg.maxAttempts - 1)).map (backoffBefore cfg.baseBackoffMs jitter) ∧
    (∀ k, backoffBefore cfg.baseBackoffMs jitter k =
      cfg.baseBackoffMs * 2 ^ (k - 1) +
        min (jitter k) (cfg.baseBackoffMs * 2 ^ (k - 1))) ∧
    List.Chain' (fun x y => x ≤ y) (invoke cfg r ev call jitter).sleeps := by
  obtain ⟨m, hm⟩ := Nat.exists_eq_add_of_le hmax
  have hinv : invoke cfg r ev call jitter =
      runAttempts r ev.event call cfg.baseBackoffMs jitter 1 cfg.maxAttempts := by
    unfold invoke
    rw [if_pos hlive]
  have hm2 : cfg.maxAttempts = m + 1 := by omega
  have hrun := runAttempts_server r ev.event call cfg.baseBackoffMs jitter hsrv m 1
  rw [hinv, hm2, hrun]
  refine ⟨rfl, by rw [Nat.add_comm 1 m], ?_, fun k => rfl, ?_⟩
  · simp
  · exact chain_le_map_range (backoffBefore cfg.baseBackoffMs jitter)
      (backoffBefore_mono cfg.baseBackoffMs jitter) m 2 (by omega)

/-- Witness for C3: Live mode, three attempts, base backoff 100 ms, no
jitter, against an oracle that always reports a server failure: three
calls, a ServerError fallback, and sleeps [200, 400]. -/
theorem server_failure_exhausts_retries_witness :
    (invoke liveCfg Role.evidence sampleEventA serverCall noJitter).calls = 3 ∧
    (invoke liveCfg Role.evidence sampleEventA serverCall noJitter).result =
      fallbackResult Role.evidence sampleEventA.event (failureKind (serverCall 3)) ∧
    (invoke liveCfg Role.evidence sampleEventA serverCall noJitter).sleeps =
      (List.range' 2 2).map (backoffBefore 100 noJitter) ∧
    (∀ k, backoffBefore 100 noJitter k =
      100 * 2 ^ (k - 1) + min (noJitter k) (100 * 2 ^ (k - 1))) ∧
    List.Chain' (fun x y => x ≤ y)
      (invoke liveCfg Role.evidence sampleEventA serverCall noJitter).sleeps :=
  server_failure_exhausts_retries liveCfg Role.evidence sampleEventA serverCall noJitter
    (by decide) (by decide)
    (fun _ => ⟨ErrKind.ServerError, rfl, rfl⟩)

end FocusAura

namespace FocusAura

/-- C1: for every validated FocusEvent the composer returns an
InterventionResponse whose four fields are all non-empty, whatever the
three providers do; and at the request boundary the only failure is a
ValidationError raised before composition — a payload with no
validation errors always yields the composed response. -/
theorem compose_always_complete (cfg : ModeConfig) (ev : FocusEvent)
    (cE cR cS : Nat → CallOutcome) (j : Nat → Nat) (p : RawPayload) :
    (compose cfg ev cE cR cS j).action_now ≠ "" ∧
    (compose cfg ev cE cR cS j).why_it_works ≠ "" ∧
    (compose cfg ev cE cR cS j).goal_reminder ≠ "" ∧
    (compose cfg ev cE cR cS j).citation ≠ "" ∧
    (validationErrors p ≠ [] →
      handleRequest cfg p cE cR cS j = Except.error (validationErrors p)) ∧
    (validationErrors p = [] →
      ∃ ev2, validate p = Except.ok ev2 ∧
        handleRequest cfg p cE cR cS j = Except.ok (compose cfg ev2 cE cR cS j)) := by
  obtain ⟨h1, h2, h3, h4⟩ := synthesize_complete ev
    (invoke cfg Role.evidence ev cE j).result
    (invoke cfg Role.recency ev cR j).result
    (invoke cfg Role.synthesis ev cS j).result
  refine ⟨h1, h2, h3, h4, fun herr => ?_, fun hok => ?_⟩
  · unfold handleRequest validate
    cases hv : validationErrors p with
    | nil => exact absurd hv herr
    | cons e es => simp
  · unfold handleRequest validate
    rw [hok]
    exact ⟨_, rfl, rfl⟩

/-- Witness for C1: a Demo-mode composition over the sample event with
failing providers, a rejected payload with two offending fields, and an
accepted minimal payload. -/
theorem compose_always_complete_witness :
    (compose demoCfg sampleEventA serverCall serverCall serverCall noJitter).action_now ≠ "" ∧
    (compose demoCfg sampleEventA serverCall serverCall serverCall noJitter).why_it_works ≠ "" ∧
    (compose demoCfg sampleEventA serverCall serverCall serverCall noJitter).goal_reminder ≠ "" ∧
    (compose demoCfg sampleEventA serverCall serverCall serverCall noJitter).citation ≠ "" ∧
    handleRequest demoCfg
      { goal := none, context_title := none, context_app := none,
        time_on_task_minutes := some (-5), event := none }
      serverCall serverCall serverCall noJitter =
      Except.error ["goal", "time_on_task_minutes"] ∧
    (∃ ev2, validate
      { goal := some "Ship it", context_title := none, context_app := none,
        time_on_task_minutes := none, event := none } = Except.ok ev2 ∧
      handleRequest demoCfg
        { goal := some "Ship it", context_title := none, context_app := none,
          time_on_task_minutes := none, event := none }
        serverCall serverCall serverCall noJitter =
        Except.ok (compose demoCfg ev2 serverCall serverCall serverCall noJitter)) := by
  have hall := compose_always_complete demoCfg sampleEventA serverCall serverCall serverCall
    noJitter
    { goal := none, context_title := none, context_app := none,
      time_on_task_minutes := some (-5), event := none }
  have hok := compose_always_complete demoCfg sampleEventA serverCall serverCall serverCall
    noJitter
    { goal := some "Ship it", context_title := none, context_app := none,
      time_on_task_minutes := none, event := none }
  refine ⟨hall.1, hall.2.1, hall.2.2.1, hall.2.2.2.1, ?_, ?_⟩
  · have herr := hall.2.2.2.2.1 (by decide)
    rw [herr]
    have hlist : validationErrors
        { goal := none, context_title := none, context_app := none,
          time_on_task_minutes := some (-5), event := none } =
        ["goal", "time_on_task_minutes"] := by decide
    rw [hlist]
  · exact hok.2.2.2.2.2 (by decide)

end FocusAura

namespace FocusAura

/-- C4 counterexample: two valid FocusEvents with the same category but
different goals produce different Demo-mode responses (the
goal_reminder differs), so the Demo-mode response is not a function of
event.category alone. -/
theorem demo_same_category_not_identical :
    sampleEventA.event = sampleEventB.event ∧
    compose demoCfg sampleEventA serverCall serverCall serverCall noJitter ≠
      compose demoCfg sampleEventB serverCall serverCall serverCall noJitter :=
  ⟨rfl, by decide⟩

/-- C4 (amended): in Demo mode `compose` is a pure deterministic
function of event.category and event.goal — two valid FocusEvents with
the same category and the same goal produce bit-for-bit identical
responses, independent of every other field, of the call oracles and of
the jitter schedule. -/
theorem demo_mode_deterministic (cfg : ModeConfig) (e1 e2 : FocusEvent)
    (c1 c2 c3 d1 d2 d3 : Nat → CallOutcome) (j1 j2 : Nat → Nat)
    (hdemo : shouldCallLive cfg = false)
    (hcat : e1.event = e2.event) (hgoal : e1.goal = e2.goal) :
    compose cfg e1 c1 c2 c3 j1 = compose cfg e2 d1 d2 d3 j2 := by
  have hbypass : ∀ (ev : FocusEvent) (r : Role) (c : Nat → CallOutcome) (j : Nat → Nat),
      (invoke cfg r ev c j).result =
        { origin := Origin.DemoTemplate, payload := template r ev.event, error := none } := by
    intro ev r c j
    unfold invoke
    rw [if_neg (by simp [hdemo])]
  unfold compose
  rw [hbypass e1 Role.evidence c1 j1, hbypass e1 Role.recency c2 j1,
      hbypass e1 Role.synthesis c3 j1, hbypass e2 Role.evidence d1 j2,
      hbypass e2 Role.recency d2 j2, hbypass e2 Role.synthesis d3 j2]
  unfold synthesize
  rw [hcat, hgoal]

/-- Witness for the amended C4: same category and goal, different
context fields, different failing oracles and jitter — identical
responses. -/
theorem demo_mode_deterministic_witness :
    compose demoCfg sampleEventA serverCall serverCall serverCall noJitter =
      compose demoCfg sampleEventC authCall authCall authCall (fun _ => 7) :=
  demo_mode_deterministic demoCfg sampleEventA sampleEventC
    serverCall serverCall serverCall authCall authCall authCall noJitter (fun _ => 7)
    (by decide) rfl rfl

/-- C5: the validator rejects any payload whose goal is absent or blank
after trimming with a ValidationError naming "goal" and enumerating
every offending field; and it accepts a payload with only goal set,
defaulting time_on_task_minutes to 0 and the event category to
"unknown". -/
theorem validator_rules (p : RawPayload) (g : String) :
    (strTrim (p.goal.getD "") = "" →
      "goal" ∈ validationErrors p ∧
      validate p = Except.error (validationErrors p)) ∧
    (∀ t : Int, p.time_on_task_minutes = some t → t < 0 →
      "time_on_task_minutes" ∈ validationErrors p) ∧
    (strTrim g ≠ "" →
      validate { goal := some g, context_title := none, context_app := none,
                 time_on_task_minutes := none, event := none } =
        Except.ok { goal := g, context_title := "", context_app := "",
                    time_on_task_minutes := 0, event := "unknown" }) := by
  refine ⟨fun hblank => ?_, fun t ht hneg => ?_, fun hg => ?_⟩
  · have hv : ∃ rest, validationErrors p = "goal" :: rest := by
      unfold validationErrors
      rw [if_pos hblank]
      exact ⟨_, rfl⟩
    obtain ⟨rest, hv⟩ := hv
    have hne : validationErrors p ≠ [] := by
      rw [hv]; exact List.cons_ne_nil _ _
    constructor
    · rw [hv]; exact List.mem_cons_self _ _
    · unfold validate
      cases hv2 : validationErrors p with
      | nil => exact absurd hv2 hne
      | cons e es => simp
  · simp only [validationErrors, ht]
    simp [hneg]
  · simp [validate, validationErrors, hg]

/-- Witness for C5: a payload with no goal and a negative minute count
is rejected with both fields enumerated; a payload with only a goal is
accepted with the defaults. -/
theorem validator_rules_witness :
    ("goal" ∈ validationErrors
        { goal := none, context_title := none, context_app := none,
          time_on_task_minutes := some (-5), event := none } ∧
      validate
        { goal := none, context_title := none, context_app := none,
          time_on_task_minutes := some (-5), event := none } =
        Except.error (validationErrors
          { goal := none, context_title := none, context_app := none,
            time_on_task_minutes := some (-5), event := none })) ∧
    "time_on_task_minutes" ∈ validationErrors
        { goal := none, context_title := none, context_app := none,
          time_on_task_minutes := some (-5), event := none } ∧
    validate { goal := some "Ship it", context_title := none, context_app := none,
               time_on_task_minutes := none, event := none } =
      Except.ok { goal := "Ship it", context_title := "", context_app := "",
                  time_on_task_minutes := 0, event := "unknown" } :=
  ⟨(validator_rules
      { goal := none, context_title := none, context_app := none,
        time_on_task_minutes := some (-5), event := none } "Ship it").1 (by decide),
   (validator_rules
      { goal := none, context_title := none, context_app := none,
        time_on_task_minutes := some (-5), event := none } "Ship it").2.1
      (-5) rfl (by decide),
   (validator_rules
      { goal := none, context_title := none, context_app := none,
        time_on_task_minutes := some (-5), event := none } "Ship it").2.2 (by decide)⟩

/-- C6: for every FocusEvent with a non-blank goal, the response's
goal_reminder is "Your goal: " concatenated with the goal; for a blank
goal it is the fixed generic phrase. -/
theorem goal_reminder_formatted (cfg : ModeConfig) (ev : FocusEvent)
    (cE cR cS : Nat → CallOutcome) (j : Nat → Nat) :
    (strTrim ev.goal ≠ "" →
      (compose cfg ev cE cR cS j).goal_reminder = "Your goal: " ++ ev.goal) ∧
    (strTrim ev.goal = "" →
      (compose cfg ev cE cR cS j).goal_reminder = genericGoalPhrase) := by
  have hgr : (compose cfg ev cE cR cS j).goal_reminder = goalReminder ev.goal := rfl
  constructor
  · intro h
    rw [hgr]
    unfold goalReminder
    rw [if_neg h]
  · intro h
    rw [hgr]
    unfold goalReminder
    rw [if_pos h]

/-- Witness for C6: the sample event's reminder quotes its goal; the
blank-goal event receives the generic phrase. -/
theorem goal_reminder_formatted_witness :
    (compose demoCfg sampleEventA serverCall serverCall serverCall noJitter).goal_reminder =
      "Your goal: " ++ sampleEventA.goal ∧
    (compose demoCfg blankGoalEvent serverCall serverCall serverCall noJitter).goal_reminder =
      genericGoalPhrase :=
  ⟨(goal_reminder_formatted demoCfg sampleEventA serverCall serverCall serverCall noJitter).1
      (by decide),
   (goal_reminder_formatted demoCfg blankGoalEvent serverCall serverCall serverCall noJitter).2
      (by decide)⟩

/-- C7: in the discrete-latency model, when all three providers exceed
the composer's deadline, the composer still returns within the deadline
and every slot is the LiveFallback/TimeoutError template placeholder —
a slow provider never delays the response past the deadline. -/
theorem deadline_always_met (cfg : ModeConfig) (ev : FocusEvent)
    (rE rR rS : ProviderResult) (lE lR lS : Nat)
    (hE : cfg.deadlineMs < lE) (hR : cfg.deadlineMs < lR) (hS : cfg.deadlineMs < lS) :
    (composeTimed cfg ev rE rR rS lE lR lS).2 ≤ cfg.deadlineMs ∧
    (composeTimed cfg ev rE rR rS lE lR lS).1 =
      synthesize ev (timeoutSlot Role.evidence ev.event)
        (timeoutSlot Role.recency ev.event) (timeoutSlot Role.synthesis ev.event) := by
  constructor
  · exact Nat.min_le_right _ _
  · show synthesize ev (fillSlot cfg Role.evidence ev.event rE lE)
      (fillSlot cfg Role.recency ev.event rR lR)
      (fillSlot cfg Role.synthesis ev.event rS lS) =
      synthesize ev (timeoutSlot Role.evidence ev.event)
        (timeoutSlot Role.recency ev.event) (timeoutSlot Role.synthesis ev.event)
    unfold fillSlot
    rw [if_pos hE, if_pos hR, if_pos hS]

/-- Witness for C7: deadline 2500 ms and three 3000 ms providers. -/
theorem deadline_always_met_witness :
    (composeTimed liveCfg sampleEventA
        { origin := Origin.LiveSuccess, payload := "late", error := none }
        { origin := Origin.LiveSuccess, payload := "late", error := none }
        { origin := Origin.LiveSuccess, payload := "late", error := none }
        3000 3000 3000).2 ≤ liveCfg.deadlineMs ∧
    (composeTimed liveCfg sampleEventA
        { origin := Origin.LiveSuccess, payload := "late", error := none }
        { origin := Origin.LiveSuccess, payload := "late", error := none }
        { origin := Origin.LiveSuccess, payload := "late", error := none }
        3000 3000 3000).1 =
      synthesize sampleEventA (timeoutSlot Role.evidence sampleEventA.event)
        (timeoutSlot Role.recency sampleEventA.event)
        (timeoutSlot Role.synthesis sampleEventA.event) :=
  deadline_always_met liveCfg sampleEventA
    { origin := Origin.LiveSuccess, payload := "late", error := none }
    { origin := Origin.LiveSuccess, payload := "late", error := none }
    { origin := Origin.LiveSuccess, payload := "late", error := none }
    3000 3000 3000 (by decide) (by decide) (by decide)

end FocusAura
